import Mathlib

/-!
Shallow embedding of the PDF question-answering pipeline of
`src/PYTHON/apiBridge.py` (class `PdfQAProcessor` and the Flask handlers
that mutate its stores), for verifying the specification's claims.

Modelling conventions:
* Python `str` is modelled by Lean `String` (a list of characters);
  character classification (`isupper`, `istitle`, `lower`, `strip`) is
  modelled for the ASCII range, which is what every concrete input below
  uses.
* Python `dict` (which preserves insertion order) is modelled by an
  association list `List (String × α)`: assignment to an existing key
  replaces the value in place, assignment to a fresh key appends, and
  `del` removes the entry.
* Timestamp fields (`processed_at`, `answered_at`, `timestamp`) are
  omitted from the records: they carry wall-clock values irrelevant to
  every claim.
* External collaborators (the langchain text splitter, FAISS index
  construction and querying, and the Gemini generative model) are
  injected as function parameters, matching the spec's collaborator
  boundary; a FAISS vectorstore is an opaque query function from
  (query, k) to scored results.
-/

namespace PdfQA

/-- Extraction method tag for a page: direct text layer or OCR. -/
inductive ExtractionMethod where
  | direct
  | ocr
deriving DecidableEq

/-- The whitespace characters stripped by Python `str.strip()`. -/
def pyIsSpace (c : Char) : Bool :=
  c = ' ' || c = '\t' || c = '\n' || c = '\r' || c = '\x0b' || c = '\x0c'

/-- Python `str.strip()` on a character list. -/
def pyStripList (l : List Char) : List Char :=
  ((l.dropWhile pyIsSpace).reverse.dropWhile pyIsSpace).reverse

/-- Python `str.strip()`. -/
def pyStrip (s : String) : String :=
  String.mk (pyStripList s.toList)

/-- ASCII uppercase letter test. -/
def isUpperAlpha (c : Char) : Bool :=
  65 ≤ c.toNat && c.toNat ≤ 90

/-- ASCII lowercase letter test. -/
def isLowerAlpha (c : Char) : Bool :=
  97 ≤ c.toNat && c.toNat ≤ 122

/-- ASCII cased-character test (Python: a character with case). -/
def isCasedAlpha (c : Char) : Bool :=
  isUpperAlpha c || isLowerAlpha c

/-- Python `str.isupper()` (ASCII model): at least one cased character
and no lowercase character. -/
def pyIsUpper (s : String) : Bool :=
  s.toList.any isCasedAlpha && !(s.toList.any isLowerAlpha)

/-- Worker for `pyIsTitle`: `prevCased` records whether the previous
character was cased, `found` whether a cased character occurred. -/
def pyIsTitleAux : List Char → Bool → Bool → Bool
  | [], _, found => found
  | c :: t, prevCased, found =>
    if isUpperAlpha c then !prevCased && pyIsTitleAux t true true
    else if isLowerAlpha c then prevCased && pyIsTitleAux t true true
    else pyIsTitleAux t false found

/-- Python `str.istitle()` (ASCII model): uppercase letters only follow
uncased characters, lowercase letters only follow cased ones, and at
least one cased character occurs. -/
def pyIsTitle (s : String) : Bool :=
  pyIsTitleAux s.toList false false

/-- Python `str.lower()` (ASCII model). -/
def pyLower (s : String) : String :=
  String.mk (s.toList.map Char.toLower)

/-- Substring test on character lists: does `needle` occur contiguously
inside `hay`?  Models Python's `needle in hay` for strings. -/
def containsSub (needle : List Char) : List Char → Bool
  | [] => needle.isPrefixOf []
  | c :: t => needle.isPrefixOf (c :: t) || containsSub needle t

/-- Python `needle in hay` for strings. -/
def pyIn (needle hay : String) : Bool :=
  containsSub needle.toList hay.toList

/-- Python `text.split("\n")` on a character list: split on every
newline, keeping empty segments. -/
def splitNewlines : List Char → List (List Char)
  | [] => [[]]
  | c :: t =>
    let r := splitNewlines t
    if c = '\n' then [] :: r
    else
      match r with
      | [] => [[c]]
      | h :: rest => (c :: h) :: rest

/-- Python `text.split("\n")`. -/
def pySplitLines (s : String) : List String :=
  (splitNewlines s.toList).map String.mk

/-- The marker substrings of the section-title heuristic
(`apiBridge.py` line 152). -/
def titleMarkers : List String :=
  ["chapter", "section", "part", "introduction", "conclusion"]

/-- `any(marker in line.lower() for marker in [...])` from line 152. -/
def hasTitleMarker (line : String) : Bool :=
  titleMarkers.any (fun m => pyIn m (pyLower line))

/-- The loop body of the section-title scan (`apiBridge.py` lines
146-154): strip each line; the first stripped line that is non-empty, of
length strictly between 5 and 80, and upper-case, title-cased or
containing a marker, is returned; the loop's `break` is modelled by
returning. -/
def sectionTitleLoop : List String → String
  | [] => "Unknown"
  | l :: t =>
    let line := pyStrip l
    if line ≠ "" && line.length > 5 && line.length < 80 &&
        (pyIsUpper line || pyIsTitle line || hasTitleMarker line) then
      line
    else
      sectionTitleLoop t

/-- Section-title detection (`apiBridge.py` lines 143-154): split the
page text on newlines, scan the first 15 lines (`lines[:15]`), default
`"Unknown"`. -/
def detectSectionTitle (text : String) : String :=
  sectionTitleLoop ((pySplitLines text).take 15)

/-- A stripped line qualifies as a title candidate (the combined
condition of lines 148-152, applied to the already-stripped line). -/
def qualifiesAsTitle (line : String) : Bool :=
  line.length > 5 && line.length < 80 &&
    (pyIsUpper line || pyIsTitle line || hasTitleMarker line)

/-- Modelled from the spec's words for claim comparison (spec §4.2 /
claim C4): scan at most the first 15 NON-EMPTY lines of the page text;
the first qualifying line wins, else `"Unknown"`.  This follows the
claim's sentence, not the code; the code's version is
`detectSectionTitle`. -/
def detectSectionTitleSpec (text : String) : String :=
  sectionTitleLoop (((pySplitLines text).filter (fun l => pyStrip l ≠ "")).take 15)

/-- The chunk-retention test of `apiBridge.py` line 169:
`chunk.strip() and len(chunk.strip()) > 10`. -/
def keepChunk (c : String) : Bool :=
  pyStrip c ≠ "" && (pyStrip c).length > 10

/-- Worker over the enumerated chunk list: keep `(chunk, chunk_idx)`
exactly for retained chunks (`apiBridge.py` lines 168-180). -/
def retainLoop : List (Nat × String) → List (String × Nat)
  | [] => []
  | (i, c) :: t => if keepChunk c then (c, i) :: retainLoop t else retainLoop t

/-- The retained chunks of one page, each paired with its
`chunk_index`, i.e. its position in the full splitter output
(`for chunk_idx, chunk in enumerate(chunks)`). -/
def retainedChunks (chunks : List String) : List (String × Nat) :=
  retainLoop chunks.enum

/-- The metadata dict attached to a chunk (`apiBridge.py` lines
170-179, without the timestamp). -/
structure ChunkMeta where
  source : String
  source_path : String
  page_number : Nat
  total_pages : Nat
  sectionTitle : String
  chunk_index : Nat
  extraction_method : ExtractionMethod
deriving DecidableEq

/-- A langchain `Document`: chunk content plus metadata. -/
structure Document where
  page_content : String
  metadata : ChunkMeta
deriving DecidableEq

/-- Build the `Document` list of one page from the splitter output
(`apiBridge.py` lines 168-180). -/
def mkChunkDocs (docName pdfPath : String) (pageNum totalPages : Nat)
    (sectionT : String) (method : ExtractionMethod)
    (chunks : List String) : List Document :=
  (retainedChunks chunks).map (fun p =>
    { page_content := p.1,
      metadata :=
        { source := docName, source_path := pdfPath, page_number := pageNum,
          total_pages := totalPages, sectionTitle := sectionT, chunk_index := p.2,
          extraction_method := method } })

/-- Per-page processing of `extract_text_from_pdf` (`apiBridge.py`
lines 119-180) after the page text and extraction method are resolved
by the PDF/OCR collaborators: skip the page when its stripped text is
empty or shorter than 20 characters (line 157), otherwise split it with
the injected splitter and retain the meaningful chunks.  The section
title is computed before the skip test in the code; a skipped page
discards it, so computing it in the non-skip branch is
output-equivalent. -/
def processPage (splitText : String → List String)
    (docName pdfPath : String) (totalPages pageNum : Nat)
    (text : String) (method : ExtractionMethod) : List Document :=
  if pyStrip text = "" || (pyStrip text).length < 20 then []
  else
    mkChunkDocs docName pdfPath pageNum totalPages
      (detectSectionTitle text) method (splitText text)

/-- Python-dict lookup `d.get(k)` / `d[k]` on an association list. -/
def dictGet? {α : Type} : List (String × α) → String → Option α
  | [], _ => none
  | (k', v) :: t, k => if k' = k then some v else dictGet? t k

/-- Python-dict assignment `d[k] = v`: replace the value in place when
the key is present, otherwise append the new entry (insertion order). -/
def dictInsert {α : Type} : List (String × α) → String → α → List (String × α)
  | [], k, v => [(k, v)]
  | (k', v') :: t, k, v =>
    if k' = k then (k, v) :: t else (k', v') :: dictInsert t k v

/-- Python `del d[k]` for a present key: remove the entry (no effect
when the key is absent; the callers below guard presence as the code
does). -/
def dictErase {α : Type} : List (String × α) → String → List (String × α)
  | [], _ => []
  | (k', v') :: t, k => if k' = k then t else (k', v') :: dictErase t k

/-- `list(d.keys())` in iteration order. -/
def dictKeys {α : Type} (d : List (String × α)) : List String :=
  d.map Prod.fst

/-- A FAISS vectorstore, opaquely: its
`similarity_search_with_score(query, k)` method, returning (document,
distance) pairs.  Distances are modelled as integers: only their order
matters to the code. -/
def VIndex : Type := String → Nat → List (Document × Int)

/-- The per-document-name metadata record built in
`extract_text_from_pdf` (lines 109-117, timestamp omitted). -/
structure PdfInfo where
  filename : String
  full_path : String
  total_pages : Nat
deriving DecidableEq

/-- `format_source_info` (lines 228-239); the `section` metadata key is
named `sectionTitle` here because `section` is a Lean keyword. -/
def formatSourceInfo (d : Document) : String :=
  let info := "📄 " ++ d.metadata.source ++ " | Page " ++ toString d.metadata.page_number
  if d.metadata.sectionTitle ≠ "" && d.metadata.sectionTitle ≠ "Unknown" then
    info ++ " | Section: " ++ d.metadata.sectionTitle
  else info

/-- `s[:n].strip() + ("..." if len(s) > n else "")` — the content
previews of lines 392, 412, 534, 569. -/
def contentPreview (n : Nat) (s : String) : String :=
  pyStrip (String.mk (s.toList.take n)) ++ (if s.length > n then "..." else "")

/-- A source-detail record (lines 388-394). -/
structure SourceDetail where
  pdf_name : String
  page_number : Nat
  sectionTitle : String
  content_preview : String
  extraction_method : ExtractionMethod
deriving DecidableEq

/-- Build the source-detail record of one retrieved chunk. -/
def mkSourceDetail (d : Document) : SourceDetail :=
  { pdf_name := d.metadata.source, page_number := d.metadata.page_number,
    sectionTitle := d.metadata.sectionTitle,
    content_preview := contentPreview 200 d.page_content,
    extraction_method := d.metadata.extraction_method }

/-- A Q&A log entry (lines 398-404, timestamp omitted). -/
structure QAEntry where
  question : String
  answer : String
  sources : List String
  source_details : List SourceDetail
deriving DecidableEq

/-- The processor's mutable stores (lines 50-53). -/
structure PState where
  documents : List (String × List Document)
  vectorstores : List (String × VIndex)
  qa_log : List QAEntry
  document_metadata : List (String × PdfInfo)

/-- The stores right after construction: all empty. -/
def initState : PState :=
  { documents := [], vectorstores := [], qa_log := [], document_metadata := [] }

/-- Ordering of scored results by ascending distance. -/
def scoreLe (a b : Document × Int) : Prop := a.2 ≤ b.2

instance : DecidableRel scoreLe :=
  fun a b => inferInstanceAs (Decidable (a.2 ≤ b.2))

instance : IsTotal (Document × Int) scoreLe :=
  ⟨fun a b => Int.le_total a.2 b.2⟩

instance : IsTrans (Document × Int) scoreLe :=
  ⟨fun _ _ _ h1 h2 => le_trans h1 h2⟩

/-- `search_similar_chunks` (lines 205-226): raise when the id has no
vectorstore; otherwise query the store, re-sort the scored pairs by
ascending score — Python's stable `list.sort(key=lambda x: x[1])` is
modelled by Mathlib's stable insertion sort — and return the documents
only.  The function reads the stores and mutates nothing, so the
returned state is the input state. -/
def searchSimilarChunks (s : PState) (query docId : String) (k : Nat) :
    Except String (List Document) × PState :=
  match dictGet? s.vectorstores docId with
  | none => (.error ("Document " ++ docId ++ " not found"), s)
  | some idx =>
    (.ok ((List.insertionSort scoreLe (idx query k)).map Prod.fst), s)

/-- One `[SOURCE i] ...` context block (lines 248-251). -/
def contextPart (i : Nat) (d : Document) : String :=
  "[SOURCE " ++ toString i ++ "] " ++ formatSourceInfo d ++ "\n" ++
    d.page_content ++ "\n"

/-- The assembled prompt of `generate_answer` (lines 246-272). -/
def buildPrompt (query : String) (docs : List Document) : String :=
  let context := String.intercalate "\n"
    (docs.enum.map (fun p => contextPart (p.1 + 1) p.2))
  "\nYou are a helpful assistant that answers questions based on PDF documents. \nUse the following context to answer the question. ALWAYS mention the source document name and page number when referencing information.\n\nContext:\n"
    ++ context
    ++ "\n\nQuestion: " ++ query
    ++ "\n\nInstructions:\n1. Provide a comprehensive answer based on the context\n2. ALWAYS cite your sources by mentioning the document name and page number like: \"According to [Document Name], page [X]...\"\n3. If information comes from multiple sources, cite all relevant sources\n4. Format your citations clearly in your response\n5. If you cannot find relevant information in the context, state that clearly\n\nAnswer:\n"

/-- The synthesized sources block of lines 279-281:
`"\n\nSources:\n"` followed by one bullet line per input chunk. -/
def sourcesSummary (docs : List Document) : String :=
  docs.foldl (fun acc d => acc ++ "• " ++ formatSourceInfo d ++ "\n")
    "\n\nSources:\n"

/-- The post-processing of `generate_answer` (lines 277-282): append
the sources block when the answer mentions neither "page" nor "source"
as a case-insensitive substring, else return it verbatim. -/
def postProcessAnswer (answer : String) (docs : List Document) : String :=
  if !(pyIn "page" (pyLower answer)) && !(pyIn "source" (pyLower answer)) then
    answer ++ sourcesSummary docs
  else answer

/-- `generate_answer` (lines 241-288) with the Gemini call injected as
`gen`. -/
def generateAnswer (gen : String → String) (query : String)
    (docs : List Document) : String :=
  postProcessAnswer (gen (buildPrompt query docs)) docs

/-- `extract_text_from_pdf` (lines 102-192) once the per-page texts and
extraction methods have been resolved by the PDF/OCR collaborators:
build the chunk documents page by page, then register the pdf info
under the document NAME (line 185).  Note the metadata write happens
inside extraction, before `process_pdf`'s no-chunks check and index
build; `docName` stands for `os.path.basename(pdf_path)`. -/
def extractTextFromPdf (splitText : String → List String)
    (pdfPath docName : String) (pages : List (String × ExtractionMethod))
    (s : PState) : List Document × PState :=
  let totalPages := pages.length
  let docs := (pages.enum.map (fun p =>
    processPage splitText docName pdfPath totalPages (p.1 + 1) p.2.1 p.2.2)).flatten
  let info : PdfInfo :=
    { filename := docName, full_path := pdfPath, total_pages := totalPages }
  (docs, { s with document_metadata := dictInsert s.document_metadata docName info })

/-- The success payload of `process_pdf` (lines 344-351, timestamp
omitted); `total_pages` is optional because the code falls back to
"Unknown" when the metadata entry is missing. -/
structure ProcessResult where
  document_id : String
  document_name : String
  chunks_count : Nat
  total_pages : Option Nat
deriving DecidableEq

/-- `process_pdf` (lines 325-356).  The extraction outcome is injected:
`.error e` models `extract_text_from_pdf` raising (PDF open failure or
a per-page collaborator error — the metadata write at line 185 sits
after the whole page loop, so the state is untouched), `.ok pages`
models it reaching the end of the loop with the given resolved pages.
`FAISS.from_documents` is injected as `buildVs` and may fail. -/
def processPdf (splitText : String → List String)
    (buildVs : List Document → Except String VIndex)
    (s : PState) (pdfPath docId docName : String)
    (extraction : Except String (List (String × ExtractionMethod))) :
    Except String ProcessResult × PState :=
  match extraction with
  | .error e => (.error e, s)
  | .ok pages =>
    let r := extractTextFromPdf splitText pdfPath docName pages s
    let docs := r.1
    let s1 := r.2
    if docs.isEmpty then
      (.error "No text could be extracted from the PDF", s1)
    else
      match buildVs docs with
      | .error e => (.error e, s1)
      | .ok vs =>
        let s2 := { s1 with documents := dictInsert s1.documents docId docs,
                            vectorstores := dictInsert s1.vectorstores docId vs }
        (.ok { document_id := docId, document_name := docName,
               chunks_count := docs.length,
               total_pages :=
                 (dictGet? s2.document_metadata docName).map (·.total_pages) },
         s2)

/-- The `DELETE /documents/<id>` handler (lines 776-801).  Unknown id:
404, no change.  Otherwise: read the document name from the first
chunk, delete the documents entry, then the vectorstores entry — a
missing vectorstores key would raise `KeyError` there, which the
handler's `except` turns into a 500 response with the documents entry
already removed and everything else untouched — then remove the
metadata entry keyed by the document name if present.  Each deletion
touches only its own store, so the later lookups are phrased on the
pre-call state. -/
def deleteDocument (s : PState) (docId : String) : PState :=
  match dictGet? s.documents docId with
  | none => s
  | some chunks =>
    let docName :=
      match chunks with
      | [] => "Unknown"
      | c :: _ => c.metadata.source
    match dictGet? s.vectorstores docId with
    | none => { s with documents := dictErase s.documents docId }
    | some _ =>
      match dictGet? s.document_metadata docName with
      | none =>
        { s with documents := dictErase s.documents docId,
                 vectorstores := dictErase s.vectorstores docId }
      | some _ =>
        { s with documents := dictErase s.documents docId,
                 vectorstores := dictErase s.vectorstores docId,
                 document_metadata := dictErase s.document_metadata docName }

/-- The `/clear` handler (lines 703-709); the `/initialize` handler
(lines 429-444) clears the same four stores. -/
def clearStores (_ : PState) : PState :=
  { documents := [], vectorstores := [], qa_log := [], document_metadata := [] }

/-- A store-mutating operation, with the external collaborator
behaviour of an ingestion baked into the operation. -/
inductive Op where
  | process (splitText : String → List String)
      (buildVs : List Document → Except String VIndex)
      (pdfPath docId docName : String)
      (extraction : Except String (List (String × ExtractionMethod)))
  | delete (docId : String)
  | clear

/-- Apply one store-mutating operation to the stores. -/
def applyOp (s : PState) : Op → PState
  | .process st b p i n e => (processPdf st b s p i n e).2
  | .delete i => deleteDocument s i
  | .clear => clearStores s

/-- States reachable from the fresh processor by any sequence of
store-mutating operations. -/
def Reachable (s : PState) : Prop :=
  ∃ ops : List Op, s = ops.foldl applyOp initState

/-- The fixed fallback answer of `answer_question` (line 371). -/
def fallbackAnswer : String :=
  "I couldn't find relevant information in the document to answer your question."

/-- A `relevant_chunks` entry (lines 410-415). -/
structure RelevantChunk where
  content : String
  metadata : ChunkMeta
deriving DecidableEq

/-- Build one `relevant_chunks` entry. -/
def mkRelevantChunk (d : Document) : RelevantChunk :=
  { content := contentPreview 300 d.page_content, metadata := d.metadata }

/-- The result payload of `answer_question`; `relevant_chunks` is
`none` on the fallback path, whose dict carries no such key. -/
structure AnswerResult where
  answer : String
  sources : List String
  source_details : List SourceDetail
  relevant_chunks : Option (List RelevantChunk)
deriving DecidableEq

/-- `answer_question` (lines 358-423) with the Gemini call injected as
`gen`: unknown id raises; empty retrieval returns the fallback payload
without touching the log or calling `gen`; otherwise generate, and
append the entry to the Q&A log. -/
def answerQuestion (gen : String → String) (s : PState)
    (docId question : String) : Except String AnswerResult × PState :=
  if (dictGet? s.documents docId).isNone then
    (.error ("Document " ++ docId ++
      " not found. Please upload and process the PDF first."), s)
  else
    match (searchSimilarChunks s question docId 5).1 with
    | .error e => (.error e, s)
    | .ok [] =>
      (.ok { answer := fallbackAnswer, sources := [], source_details := [],
             relevant_chunks := none }, s)
    | .ok docs =>
      let answer := generateAnswer gen question docs
      let sources := docs.map formatSourceInfo
      let details := docs.map mkSourceDetail
      let entry : QAEntry := { question := question, answer := answer,
                               sources := sources, source_details := details }
      (.ok { answer := answer, sources := sources, source_details := details,
             relevant_chunks := some (docs.map mkRelevantChunk) },
       { s with qa_log := s.qa_log ++ [entry] })

/-- One round of the `/ask` per-document loop (lines 521-540): search
with `top_k = 3` and extend the accumulated chunks, sources and
details; a per-document exception is caught and the document skipped. -/
def askLoopStep (s : PState) (question : String)
    (acc : List Document × List String × List SourceDetail)
    (docId : String) : List Document × List String × List SourceDetail :=
  match (searchSimilarChunks s question docId 3).1 with
  | .error _ => acc
  | .ok rel =>
    (acc.1 ++ rel, acc.2.1 ++ rel.map formatSourceInfo,
     acc.2.2 ++ rel.map mkSourceDetail)

/-- The accumulation loop of `/ask` over all known document ids, in
document iteration order. -/
def askLoop (s : PState) (question : String) :
    List Document × List String × List SourceDetail :=
  (dictKeys s.documents).foldl (askLoopStep s question) ([], [], [])

/-- The result payload of the `/ask` handler. -/
structure AskResult where
  answer : String
  sources : List String
  source_details : List SourceDetail
  relevant_chunks : Option (List RelevantChunk)
  documents_searched : Nat
deriving DecidableEq

/-- The `/ask` handler `ask_question_multiple` (lines 501-578) with the
Gemini call injected as `gen`: per-document top-3 search over all known
documents, concatenation in document iteration order, answer synthesis
over the first 5 chunks of the concatenation. -/
def askQuestionMultiple (gen : String → String) (s : PState)
    (question : String) : Except String AskResult × PState :=
  if pyStrip question = "" then (.error "Question cannot be empty", s)
  else if s.documents.isEmpty then
    (.error "No documents found. Please upload and process PDFs first.", s)
  else
    let acc := askLoop s question
    let all := acc.1
    if all.isEmpty then
      (.ok { answer := "I couldn't find relevant information in any of the processed documents.",
             sources := [], source_details := [], relevant_chunks := none,
             documents_searched := s.documents.length }, s)
    else
      let answer := generateAnswer gen question (all.take 5)
      let entry : QAEntry := { question := question, answer := answer,
                               sources := acc.2.1.take 5,
                               source_details := acc.2.2.take 5 }
      (.ok { answer := answer, sources := acc.2.1.take 5,
             source_details := acc.2.2.take 5,
             relevant_chunks := some ((all.take 5).map mkRelevantChunk),
             documents_searched := s.documents.length },
       { s with qa_log := s.qa_log ++ [entry] })

/-! ### Claim C4: section-title detection -/

/-- The loop condition of lines 148-152 on an already-stripped line
equals `qualifiesAsTitle`: non-emptiness is implied by length > 5. -/
theorem loopCond_eq (line : String) :
    (line ≠ "" && line.length > 5 && line.length < 80 &&
        (pyIsUpper line || pyIsTitle line || hasTitleMarker line))
      = qualifiesAsTitle line := by
  by_cases h : line = ""
  · subst h; rfl
  · simp [qualifiesAsTitle, h, Bool.and_assoc]

/-- The scan loop returns the first stripped line that qualifies, else
`"Unknown"`. -/
theorem sectionTitleLoop_eq_find? (ls : List String) :
    sectionTitleLoop ls =
      ((ls.map pyStrip).find? qualifiesAsTitle).getD "Unknown" := by
  induction ls with
  | nil => rfl
  | cons l t ih =>
    rw [List.map_cons]
    cases h : qualifiesAsTitle (pyStrip l) with
    | true =>
      rw [List.find?_cons_of_pos _ h]
      simp only [sectionTitleLoop, loopCond_eq, h, if_true, Option.getD_some]
    | false =>
      rw [List.find?_cons_of_neg _ (by simp [h])]
      simp only [sectionTitleLoop, loopCond_eq, h, if_false]
      exact ih

/-- **C4, counterexample.**  The claim says the detector scans at most
the first 15 NON-EMPTY lines.  On a page whose first 15 lines are all
empty and whose 16th line is `"INTRODUCTION"` (a qualifying title), the
code scans `lines[:15]` — the first 15 lines, empty ones included — and
returns `"Unknown"`, while the claim's reading (`detectSectionTitleSpec`)
returns `"INTRODUCTION"`. -/
theorem detectSectionTitle_first15_nonempty_cex :
    detectSectionTitle "\n\n\n\n\n\n\n\n\n\n\n\n\n\n\nINTRODUCTION" = "Unknown" ∧
    detectSectionTitleSpec "\n\n\n\n\n\n\n\n\n\n\n\n\n\n\nINTRODUCTION" = "INTRODUCTION" ∧
    qualifiesAsTitle "INTRODUCTION" = true :=
  ⟨by decide, by decide, by decide⟩

/-- **C4, amended.**  The section-title detector is a pure function of
the page text that scans at most the first 15 LINES (empty or not) of
the newline-split text; a line qualifies iff its trimmed length is
strictly greater than 5 and strictly less than 80 and it is fully
upper-case, title-cased, or contains one of the case-insensitive
markers; the result is the first qualifying line (trimmed), or
`"Unknown"` when no scanned line qualifies. -/
theorem detectSectionTitle_first15_lines (text : String) :
    detectSectionTitle text =
      ((((pySplitLines text).take 15).map pyStrip).find? qualifiesAsTitle).getD
        "Unknown" :=
  sectionTitleLoop_eq_find? _

/-! ### Claim C5: chunk retention and chunk_index -/

/-- The retention test is equivalent to trimmed length strictly greater
than 10. -/
theorem keepChunk_iff (c : String) :
    keepChunk c = true ↔ 10 < (pyStrip c).length := by
  unfold keepChunk
  by_cases h : pyStrip c = ""
  · rw [h]; simp
  · simp [h]

/-- Membership in the retention loop: a (chunk, index) pair survives
iff the enumerated pair was present and the chunk passes the test. -/
theorem mem_retainLoop {ps : List (Nat × String)} {c : String} {i : Nat} :
    (c, i) ∈ retainLoop ps ↔ (i, c) ∈ ps ∧ keepChunk c = true := by
  induction ps with
  | nil => simp [retainLoop]
  | cons p t ih =>
    obtain ⟨j, d⟩ := p
    by_cases h : keepChunk d = true
    · rw [show retainLoop ((j, d) :: t) = (d, j) :: retainLoop t from by
          simp [retainLoop, h]]
      simp only [List.mem_cons, ih, Prod.mk.injEq]
      constructor
      · rintro (⟨hc, hi⟩ | ⟨hm, hk⟩)
        · exact ⟨Or.inl ⟨hi, hc⟩, hc ▸ h⟩
        · exact ⟨Or.inr hm, hk⟩
      · rintro ⟨hij | hm, hk⟩
        · exact Or.inl ⟨hij.2, hij.1⟩
        · exact Or.inr ⟨hm, hk⟩
    · rw [show retainLoop ((j, d) :: t) = retainLoop t from by
          simp [retainLoop, h]]
      simp only [ih, List.mem_cons, Prod.mk.injEq]
      constructor
      · rintro ⟨hm, hk⟩
        exact ⟨Or.inr hm, hk⟩
      · rintro ⟨hij | hm, hk⟩
        · exact absurd (hij.2 ▸ hk) h
        · exact ⟨hm, hk⟩

/-- Membership in the retained chunks of a page. -/
theorem mem_retainedChunks (chunks : List String) (c : String) (i : Nat) :
    (c, i) ∈ retainedChunks chunks ↔
      chunks[i]? = some c ∧ 10 < (pyStrip c).length := by
  rw [retainedChunks, mem_retainLoop, keepChunk_iff,
    List.mk_mem_enum_iff_getElem?]

/-- Every index in `enumFrom n l` is at least `n`. -/
theorem le_fst_of_mem_enumFrom' {l : List α} {n : Nat} {p : Nat × α}
    (h : p ∈ l.enumFrom n) : n ≤ p.1 := by
  induction l generalizing n with
  | nil => simp [List.enumFrom] at h
  | cons x t ih =>
    rw [List.enumFrom] at h
    rcases List.mem_cons.mp h with h | h
    · rw [h]
    · exact Nat.le_trans (Nat.le_succ n) (ih h)

/-- The indices of `enumFrom` are strictly increasing. -/
theorem pairwise_fst_lt_enumFrom (l : List α) (n : Nat) :
    (l.enumFrom n).Pairwise (fun a b => a.1 < b.1) := by
  induction l generalizing n with
  | nil => simp [List.enumFrom]
  | cons x t ih =>
    rw [List.enumFrom]
    refine List.Pairwise.cons (fun b hb => ?_) (ih (n + 1))
    have := le_fst_of_mem_enumFrom' hb
    omega

/-- The retention loop preserves strictly increasing indices. -/
theorem pairwise_retainLoop {ps : List (Nat × String)}
    (h : ps.Pairwise (fun a b => a.1 < b.1)) :
    (retainLoop ps).Pairwise (fun a b => a.2 < b.2) := by
  induction ps with
  | nil => simp [retainLoop]
  | cons p t ih =>
    obtain ⟨hhead, htail⟩ := List.pairwise_cons.mp h
    obtain ⟨j, d⟩ := p
    by_cases hk : keepChunk d = true
    · simp only [retainLoop, hk, if_true]
      refine List.Pairwise.cons (fun b hb => ?_) (ih htail)
      obtain ⟨bc, bi⟩ := b
      have hm := (mem_retainLoop.mp hb).1
      exact hhead (bi, bc) hm
    · simp only [retainLoop, hk, if_false]
      exact ih htail

/-- **C5, counterexample.**  The claim says the retained chunks of a
page carry the indices 0, 1, 2, ... .  When the splitter output starts
with a chunk of trimmed length ≤ 10 (as happens when a short paragraph
precedes an oversized one), that chunk is discarded but the retained
chunk keeps its enumeration index 1, so the retained indices are `[1]`,
not `[0]`. -/
theorem chunkIndex_not_reindexed_cex :
    retainedChunks ["tiny x yz", "this chunk is long enough to keep"] =
      [("this chunk is long enough to keep", 1)] ∧
    (mkChunkDocs "a.pdf" "/tmp/a.pdf" 1 1 "Unknown" ExtractionMethod.direct
        ["tiny x yz", "this chunk is long enough to keep"]).map
        (fun d => d.metadata.chunk_index) = [1] ∧
    (retainedChunks ["tiny x yz", "this chunk is long enough to keep"]).map
        Prod.snd ≠
      List.range
        (retainedChunks ["tiny x yz", "this chunk is long enough to keep"]).length :=
  ⟨by decide, by decide, by decide⟩

/-- **C5, amended.**  A chunk is retained iff its trimmed length
strictly exceeds 10; each retained chunk's `chunk_index` is its
zero-based position in the page's FULL splitter output (discarded
chunks included), so the retained indices are strictly increasing but
not in general consecutive from 0. -/
theorem retainedChunks_spec (docName pdfPath : String)
    (pageNum totalPages : Nat) (sec : String) (method : ExtractionMethod)
    (chunks : List String) :
    ((mkChunkDocs docName pdfPath pageNum totalPages sec method chunks).map
        (fun d => (d.page_content, d.metadata.chunk_index)) =
      retainedChunks chunks) ∧
    (∀ (c : String) (i : Nat), (c, i) ∈ retainedChunks chunks ↔
      chunks[i]? = some c ∧ 10 < (pyStrip c).length) ∧
    ((retainedChunks chunks).map Prod.snd).Pairwise (· < ·) := by
  refine ⟨?_, fun c i => mem_retainedChunks chunks c i, ?_⟩
  · rw [mkChunkDocs, List.map_map]
    have hfun : ((fun d : Document => (d.page_content, d.metadata.chunk_index)) ∘
        (fun p : String × Nat =>
          ({ page_content := p.1,
             metadata :=
               { source := docName, source_path := pdfPath, page_number := pageNum,
                 total_pages := totalPages, sectionTitle := sec, chunk_index := p.2,
                 extraction_method := method } } : Document))) = id :=
      funext (fun x => rfl)
    rw [hfun, List.map_id]
  · have h := pairwise_retainLoop (pairwise_fst_lt_enumFrom chunks 0)
    exact h.map Prod.snd (fun a b hab => hab)

/-! ### Claim C7: short pages contribute no chunks -/

/-- **C7.**  A page whose stripped text has length < 20 (which covers
the empty case, since an empty string has length 0) contributes no
chunks; every other page is chunked normally: split, then filtered and
indexed by `mkChunkDocs`, with the detected section title. -/
theorem processPage_short_skip (splitText : String → List String)
    (docName pdfPath : String) (totalPages pageNum : Nat)
    (text : String) (method : ExtractionMethod) :
    ((pyStrip text).length < 20 →
      processPage splitText docName pdfPath totalPages pageNum text method = []) ∧
    (20 ≤ (pyStrip text).length →
      processPage splitText docName pdfPath totalPages pageNum text method =
        mkChunkDocs docName pdfPath pageNum totalPages
          (detectSectionTitle text) method (splitText text)) := by
  constructor
  · intro h
    simp [processPage, h]
  · intro h
    have h1 : ¬ pyStrip text = "" := by
      intro he
      rw [he] at h
      simp at h
    have h2 : ¬ (pyStrip text).length < 20 := by omega
    simp [processPage, h1, h2]

/-- Witness for C7 at concrete pages: a 10-character page is skipped, a
33-character page is chunked normally. -/
theorem processPage_short_skip_witness :
    processPage (fun t => [t]) "d.pdf" "/p" 1 1 "short text" ExtractionMethod.direct
        = [] ∧
    processPage (fun t => [t]) "d.pdf" "/p" 1 1
        "this page has plenty of text here" ExtractionMethod.direct =
      mkChunkDocs "d.pdf" "/p" 1 1
        (detectSectionTitle "this page has plenty of text here")
        ExtractionMethod.direct ["this page has plenty of text here"] :=
  ⟨(processPage_short_skip (fun t => [t]) "d.pdf" "/p" 1 1 "short text"
      ExtractionMethod.direct).1 (by decide),
   (processPage_short_skip (fun t => [t]) "d.pdf" "/p" 1 1
      "this page has plenty of text here" ExtractionMethod.direct).2 (by decide)⟩

/-! ### Claim C6: search on an unknown identifier -/

/-- **C6.**  `search_similar_chunks` on a document identifier with no
entry in the Vector Index map fails with the "not found" error and
returns the state unchanged: every store (documents, vectorstores,
document_metadata, qa_log) is exactly as before the call. -/
theorem searchSimilarChunks_unknown_id (s : PState) (query docId : String)
    (k : Nat) (h : dictGet? s.vectorstores docId = none) :
    searchSimilarChunks s query docId k =
      (Except.error ("Document " ++ docId ++ " not found"), s) := by
  simp [searchSimilarChunks, h]

/-- Witness for C6 on the empty store. -/
theorem searchSimilarChunks_unknown_id_witness :
    searchSimilarChunks initState "query" "docX" 5 =
      (Except.error "Document docX not found", initState) :=
  searchSimilarChunks_unknown_id initState "query" "docX" 5 rfl

/-! ### Claim C8: search results re-sorted by ascending distance -/

/-- A fixed document for concrete witnesses. -/
def sampleDoc (content : String) (page : Nat) : Document :=
  { page_content := content,
    metadata :=
      { source := "a.pdf", source_path := "/tmp/a.pdf", page_number := page,
        total_pages := 2, sectionTitle := "Unknown", chunk_index := 0,
        extraction_method := ExtractionMethod.direct } }

/-- A vectorstore whose raw results come back in descending-score
order, i.e. NOT already sorted ascending. -/
def sampleIndexUnsorted : VIndex :=
  fun _ _ => [(sampleDoc "alpha chunk content" 1, 7),
              (sampleDoc "beta chunk content" 2, 3)]

/-- A store holding one document backed by `sampleIndexUnsorted`. -/
def sampleStateSearch : PState :=
  { documents := [("d1", [sampleDoc "alpha chunk content" 1,
                          sampleDoc "beta chunk content" 2])],
    vectorstores := [("d1", sampleIndexUnsorted)],
    qa_log := [], document_metadata := [] }

/-- **C8.**  A successful `search_similar_chunks` returns exactly the
chunks of a stably score-sorted permutation of the pairs the index
returned, with the scores projected away: the returned chunk list
follows non-decreasing distance regardless of the index's own order,
and the state is unchanged. -/
theorem searchSimilarChunks_sorted_by_score (s : PState) (query docId : String)
    (k : Nat) (idx : VIndex) (h : dictGet? s.vectorstores docId = some idx) :
    ∃ sortedPairs : List (Document × Int),
      sortedPairs.Perm (idx query k) ∧ sortedPairs.Sorted scoreLe ∧
      searchSimilarChunks s query docId k =
        (Except.ok (sortedPairs.map Prod.fst), s) := by
  refine ⟨List.insertionSort scoreLe (idx query k),
    List.perm_insertionSort _ _, List.sorted_insertionSort _ _, ?_⟩
  simp [searchSimilarChunks, h]

/-- Witness for C8 on a concrete store whose index returns its pairs in
descending-score order. -/
theorem searchSimilarChunks_sorted_by_score_witness :
    ∃ sortedPairs : List (Document × Int),
      sortedPairs.Perm (sampleIndexUnsorted "q" 5) ∧
      sortedPairs.Sorted scoreLe ∧
      searchSimilarChunks sampleStateSearch "q" "d1" 5 =
        (Except.ok (sortedPairs.map Prod.fst), sampleStateSearch) :=
  searchSimilarChunks_sorted_by_score sampleStateSearch "q" "d1" 5
    sampleIndexUnsorted rfl

/-! ### Claim C9: the appended Sources block -/

/-- Folding string appends from an accumulator equals the accumulator
followed by the join. -/
theorem foldl_append_eq_join (l : List String) :
    ∀ init : String, l.foldl (fun acc x => acc ++ x) init =
      init ++ String.join l := by
  induction l with
  | nil =>
    intro init
    simp [String.join]
  | cons x t ih =>
    intro init
    have hx : String.join (x :: t) = x ++ String.join t := by
      show (x :: t).foldl (· ++ ·) "" = _
      rw [List.foldl_cons, ih ("" ++ x)]
      simp
    rw [List.foldl_cons, ih (init ++ x), hx, String.append_assoc]

/-- The sources block is the header followed by one bullet line per
input chunk, in input order. -/
theorem sourcesSummary_eq (docs : List Document) :
    sourcesSummary docs =
      "\n\nSources:\n" ++
        String.join (docs.map (fun d => "• " ++ formatSourceInfo d ++ "\n")) := by
  have hfun : (fun (acc : String) (d : Document) =>
        acc ++ "• " ++ formatSourceInfo d ++ "\n")
      = fun acc d => acc ++ ("• " ++ formatSourceInfo d ++ "\n") := by
    funext acc d
    simp [String.append_assoc]
  rw [sourcesSummary, hfun, ← List.foldl_map, foldl_append_eq_join]

/-- **C9.**  For a non-empty chunk list, `generate_answer` appends the
"Sources:" block listing the formatted source label of every input
chunk exactly when the model's text contains neither "page" nor
"source" as a case-insensitive substring; otherwise the text is
returned verbatim. -/
theorem postProcessAnswer_sources_block (answer : String)
    (docs : List Document) (_hne : docs ≠ []) :
    (pyIn "page" (pyLower answer) = false →
      pyIn "source" (pyLower answer) = false →
      postProcessAnswer answer docs =
        answer ++ ("\n\nSources:\n" ++
          String.join (docs.map (fun d => "• " ++ formatSourceInfo d ++ "\n")))) ∧
    (pyIn "page" (pyLower answer) = true ∨
        pyIn "source" (pyLower answer) = true →
      postProcessAnswer answer docs = answer) := by
  constructor
  · intro h1 h2
    rw [postProcessAnswer, if_pos (by simp [h1, h2]), sourcesSummary_eq]
  · intro h
    rcases h with h | h <;>
      rw [postProcessAnswer, if_neg (by simp [h])]

/-- Witness for C9: an answer citing nothing gets the block appended;
an answer mentioning a page is returned verbatim. -/
theorem postProcessAnswer_sources_block_witness :
    ([sampleDoc "alpha chunk content" 1] ≠ ([] : List Document)) ∧
    postProcessAnswer "The answer is 42." [sampleDoc "alpha chunk content" 1] =
      "The answer is 42." ++ ("\n\nSources:\n" ++
        String.join ([sampleDoc "alpha chunk content" 1].map
          (fun d => "• " ++ formatSourceInfo d ++ "\n"))) ∧
    postProcessAnswer "See page 3." [sampleDoc "alpha chunk content" 1] =
      "See page 3." :=
  ⟨by simp,
   (postProcessAnswer_sources_block "The answer is 42." _ (by simp)).1
     (by decide) (by decide),
   (postProcessAnswer_sources_block "See page 3." _ (by simp)).2
     (Or.inl (by decide))⟩

/-! ### Claim C1: atomicity of ingestion -/

/-- **C1, counterexample.**  Extraction succeeds but the only page is
too short to contribute chunks, so the no-chunks check fails the
ingestion — yet `extract_text_from_pdf` already registered the metadata
entry (line 185), so `document_metadata` differs from its pre-call
state, refuting atomicity with respect to all three stores. -/
theorem processPdf_partial_registration_cex :
    (processPdf (fun t => [t]) (fun _ => Except.error "no build") initState
        "/tmp/a.pdf" "doc_1" "a.pdf"
        (Except.ok [("hi", ExtractionMethod.direct)])).1 =
      Except.error "No text could be extracted from the PDF" ∧
    (processPdf (fun t => [t]) (fun _ => Except.error "no build") initState
        "/tmp/a.pdf" "doc_1" "a.pdf"
        (Except.ok [("hi", ExtractionMethod.direct)])).2.document_metadata =
      [("a.pdf", { filename := "a.pdf", full_path := "/tmp/a.pdf",
                   total_pages := 1 })] ∧
    initState.document_metadata = [] :=
  ⟨rfl, by decide, rfl⟩

/-- **C1, amended.**  Ingestion is atomic with respect to the Document
Store, the Vector Index map and the Q&A log: any failure leaves all
three unchanged.  It is NOT atomic with respect to the metadata map:
when extraction itself fails the whole state is unchanged, but when
extraction succeeds and a later stage (the no-chunks check or the index
build) fails, the metadata entry for the document's filename is already
registered.  Only on full success are the chunk list and index
registered under the document identifier, together with the metadata
under the filename. -/
theorem processPdf_atomic_amended (splitText : String → List String)
    (buildVs : List Document → Except String VIndex) (s : PState)
    (pdfPath docId docName : String)
    (extraction : Except String (List (String × ExtractionMethod))) :
    (∀ e, (processPdf splitText buildVs s pdfPath docId docName extraction).1 =
        Except.error e →
      (processPdf splitText buildVs s pdfPath docId docName
          extraction).2.documents = s.documents ∧
      (processPdf splitText buildVs s pdfPath docId docName
          extraction).2.vectorstores = s.vectorstores ∧
      (processPdf splitText buildVs s pdfPath docId docName
          extraction).2.qa_log = s.qa_log) ∧
    (∀ e, extraction = Except.error e →
      (processPdf splitText buildVs s pdfPath docId docName extraction).2 = s) ∧
    (∀ pages, extraction = Except.ok pages →
      ∀ e, (processPdf splitText buildVs s pdfPath docId docName extraction).1 =
          Except.error e →
      (processPdf splitText buildVs s pdfPath docId docName
          extraction).2.document_metadata =
        dictInsert s.document_metadata docName
          { filename := docName, full_path := pdfPath,
            total_pages := pages.length }) ∧
    (∀ r, (processPdf splitText buildVs s pdfPath docId docName extraction).1 =
        Except.ok r →
      ∃ pages vs,
        extraction = Except.ok pages ∧
        (extractTextFromPdf splitText pdfPath docName pages s).1 ≠ [] ∧
        buildVs (extractTextFromPdf splitText pdfPath docName pages s).1 =
          Except.ok vs ∧
        (processPdf splitText buildVs s pdfPath docId docName extraction).2 =
          { documents := dictInsert s.documents docId
              (extractTextFromPdf splitText pdfPath docName pages s).1,
            vectorstores := dictInsert s.vectorstores docId vs,
            qa_log := s.qa_log,
            document_metadata := dictInsert s.document_metadata docName
              { filename := docName, full_path := pdfPath,
                total_pages := pages.length } }) := by
  cases extraction with
  | error e0 =>
    refine ⟨fun e _ => ⟨rfl, rfl, rfl⟩, fun e _ => rfl,
      fun pages hp => Except.noConfusion hp, fun r hr => Except.noConfusion hr⟩
  | ok pages =>
    by_cases hd :
        (extractTextFromPdf splitText pdfPath docName pages s).1.isEmpty = true
    · have hproc : processPdf splitText buildVs s pdfPath docId docName
          (Except.ok pages) =
          (Except.error "No text could be extracted from the PDF",
           (extractTextFromPdf splitText pdfPath docName pages s).2) := by
        simp only [processPdf]
        rw [if_pos hd]
      refine ⟨fun e _ => ?_, fun e he => Except.noConfusion he,
        fun ps hp e _ => ?_, fun r hr => ?_⟩
      · rw [hproc]
        exact ⟨rfl, rfl, rfl⟩
      · injection hp with hps
        subst hps
        rw [hproc]
        rfl
      · rw [hproc] at hr
        exact Except.noConfusion hr
    · cases hb : buildVs (extractTextFromPdf splitText pdfPath docName pages s).1 with
      | error e1 =>
        have hproc : processPdf splitText buildVs s pdfPath docId docName
            (Except.ok pages) =
            (Except.error e1,
             (extractTextFromPdf splitText pdfPath docName pages s).2) := by
          simp only [processPdf]
          rw [if_neg hd, hb]
        refine ⟨fun e _ => ?_, fun e he => Except.noConfusion he,
          fun ps hp e _ => ?_, fun r hr => ?_⟩
        · rw [hproc]
          exact ⟨rfl, rfl, rfl⟩
        · injection hp with hps
          subst hps
          rw [hproc]
          rfl
        · rw [hproc] at hr
          exact Except.noConfusion hr
      | ok vs =>
        have hproc : processPdf splitText buildVs s pdfPath docId docName
            (Except.ok pages) =
            (Except.ok
              { document_id := docId, document_name := docName,
                chunks_count :=
                  (extractTextFromPdf splitText pdfPath docName pages s).1.length,
                total_pages :=
                  (dictGet? (extractTextFromPdf splitText pdfPath docName
                      pages s).2.document_metadata docName).map
                    (·.total_pages) },
             { documents := dictInsert s.documents docId
                 (extractTextFromPdf splitText pdfPath docName pages s).1,
               vectorstores := dictInsert s.vectorstores docId vs,
               qa_log := s.qa_log,
               document_metadata := dictInsert s.document_metadata docName
                 { filename := docName, full_path := pdfPath,
                   total_pages := pages.length } }) := by
          simp only [processPdf]
          rw [if_neg hd, hb]
          rfl
        refine ⟨fun e he => ?_, fun e he => Except.noConfusion he,
          fun ps hp e he => ?_, fun r hr => ?_⟩
        · rw [hproc] at he
          exact Except.noConfusion he
        · rw [hproc] at he
          exact Except.noConfusion he
        · refine ⟨pages, vs, rfl, ?_, hb, ?_⟩
          · intro hnil
            rw [hnil] at hd
            exact hd rfl
          · rw [hproc]

/-- Witness for C1 at concrete inputs: a failing ingestion (short page)
leaves the Document Store unchanged, and a succeeding ingestion
registers chunks, index and metadata. -/
theorem processPdf_atomic_amended_witness :
    ((processPdf (fun t => [t]) (fun _ => Except.error "no build") initState
        "/tmp/a.pdf" "doc_1" "a.pdf"
        (Except.ok [("hi", ExtractionMethod.direct)])).2.documents =
      initState.documents) ∧
    (∃ pages vs,
      (Except.ok [("this page has plenty of text to chunk",
          ExtractionMethod.direct)] :
            Except String (List (String × ExtractionMethod))) =
        Except.ok pages ∧
      (extractTextFromPdf (fun t => [t]) "/tmp/a.pdf" "a.pdf" pages
          initState).1 ≠ [] ∧
      (fun _ : List Document =>
          (Except.ok (fun _ _ => []) : Except String VIndex))
        (extractTextFromPdf (fun t => [t]) "/tmp/a.pdf" "a.pdf" pages
          initState).1 = Except.ok vs ∧
      (processPdf (fun t => [t]) (fun _ => Except.ok (fun _ _ => []))
          initState "/tmp/a.pdf" "doc_1" "a.pdf"
          (Except.ok [("this page has plenty of text to chunk",
            ExtractionMethod.direct)])).2 =
        { documents := dictInsert initState.documents "doc_1"
            (extractTextFromPdf (fun t => [t]) "/tmp/a.pdf" "a.pdf" pages
              initState).1,
          vectorstores := dictInsert initState.vectorstores "doc_1" vs,
          qa_log := initState.qa_log,
          document_metadata := dictInsert initState.document_metadata "a.pdf"
            { filename := "a.pdf", full_path := "/tmp/a.pdf",
              total_pages := pages.length } }) :=
  ⟨((processPdf_atomic_amended (fun t => [t]) (fun _ => Except.error "no build")
      initState "/tmp/a.pdf" "doc_1" "a.pdf"
      (Except.ok [("hi", ExtractionMethod.direct)])).1
      "No text could be extracted from the PDF" rfl).1,
   (processPdf_atomic_amended (fun t => [t])
      (fun _ => Except.ok (fun _ _ => [])) initState "/tmp/a.pdf" "doc_1"
      "a.pdf"
      (Except.ok [("this page has plenty of text to chunk",
        ExtractionMethod.direct)])).2.2.2
      { document_id := "doc_1", document_name := "a.pdf", chunks_count := 1,
        total_pages := some 1 } rfl⟩

/-! ### Claim C10: empty retrieval in answer_question -/

/-- A store with one registered document whose index returns no
results. -/
def sampleStateEmptySearch : PState :=
  { documents := [("d1", [sampleDoc "alpha chunk content" 1])],
    vectorstores := [("d1", fun _ _ => [])],
    qa_log := [], document_metadata := [] }

/-- **C10.**  When retrieval returns an empty chunk list,
`answer_question` returns the fixed fallback answer with empty sources
and source_details, the result does not depend on the generative model
(`gen` is universally quantified on both sides of a `gen`-free
equation), and the state — in particular the Q&A log — is unchanged.
The log is extended only when retrieval succeeded with a non-empty
chunk list and the call returned a successful answer. -/
theorem answerQuestion_empty_retrieval (s : PState) (docId question : String) :
    ((dictGet? s.documents docId).isSome = true →
      (searchSimilarChunks s question docId 5).1 = Except.ok [] →
      ∀ gen : String → String,
        answerQuestion gen s docId question =
          (Except.ok { answer := fallbackAnswer, sources := [],
                       source_details := [], relevant_chunks := none }, s)) ∧
    (∀ gen : String → String,
      (answerQuestion gen s docId question).2.qa_log ≠ s.qa_log →
      ∃ docs a, (searchSimilarChunks s question docId 5).1 = Except.ok docs ∧
        docs ≠ [] ∧
        (answerQuestion gen s docId question).1 = Except.ok a) := by
  constructor
  · intro h1 h2 gen
    have hn : ¬ ((dictGet? s.documents docId).isNone = true) := by
      rcases hx : dictGet? s.documents docId with _ | v
      · rw [hx] at h1
        simp at h1
      · simp [hx]
    unfold answerQuestion
    rw [if_neg hn, h2]
  · intro gen hlog
    by_cases hN : (dictGet? s.documents docId).isNone = true
    · exfalso
      apply hlog
      unfold answerQuestion
      rw [if_pos hN]
    · cases hs : (searchSimilarChunks s question docId 5).1 with
      | error e =>
        exfalso
        apply hlog
        unfold answerQuestion
        rw [if_neg hN, hs]
      | ok docs =>
        cases docs with
        | nil =>
          exfalso
          apply hlog
          unfold answerQuestion
          rw [if_neg hN, hs]
        | cons d t =>
          refine ⟨d :: t,
            { answer := generateAnswer gen question (d :: t),
              sources := (d :: t).map formatSourceInfo,
              source_details := (d :: t).map mkSourceDetail,
              relevant_chunks := some ((d :: t).map mkRelevantChunk) },
            rfl, List.cons_ne_nil d t, ?_⟩
          unfold answerQuestion
          rw [if_neg hN, hs]

/-- Witness for C10: on a store whose index returns nothing, the call
returns the fallback payload and leaves the state untouched. -/
theorem answerQuestion_empty_retrieval_witness :
    answerQuestion (fun _ => "model output") sampleStateEmptySearch "d1" "q" =
      (Except.ok { answer := fallbackAnswer, sources := [],
                   source_details := [], relevant_chunks := none },
       sampleStateEmptySearch) :=
  (answerQuestion_empty_retrieval sampleStateEmptySearch "d1" "q").1 rfl rfl
    (fun _ => "model output")

/-! ### Claim C3: cross-document retrieval -/

/-- The chunk list one document contributes to the `/ask` loop: the
search result, or nothing when the per-document exception was caught. -/
def searchOrEmpty (s : PState) (question docId : String) (k : Nat) :
    List Document :=
  match (searchSimilarChunks s question docId k).1 with
  | Except.error _ => []
  | Except.ok rel => rel

/-- The chunk accumulator of the `/ask` loop from any starting
accumulator: the already-accumulated chunks followed by the
per-document top-3 lists in iteration order. -/
theorem askLoop_foldl_fst (s : PState) (question : String)
    (ids : List String) :
    ∀ acc : List Document × List String × List SourceDetail,
      (ids.foldl (askLoopStep s question) acc).1 =
        acc.1 ++
          (ids.map (fun docId => searchOrEmpty s question docId 3)).flatten := by
  induction ids with
  | nil =>
    intro acc
    simp
  | cons i t ih =>
    intro acc
    rw [List.foldl_cons, ih, List.map_cons, List.flatten_cons]
    cases hs : (searchSimilarChunks s question i 3).1 with
    | error e => simp [askLoopStep, searchOrEmpty, hs]
    | ok rel => simp [askLoopStep, searchOrEmpty, hs]

/-- The `/ask` chunk concatenation in closed form. -/
theorem askLoop_fst_eq_flatten (s : PState) (question : String) :
    (askLoop s question).1 =
      ((dictKeys s.documents).map
        (fun docId => searchOrEmpty s question docId 3)).flatten := by
  rw [askLoop, askLoop_foldl_fst]
  rfl

/-- **C3.**  Cross-document retrieval performs a per-document search
with `top_k = 3` for each known document in document iteration order
and concatenates the per-document lists in that order with no global
re-ranking; only the first 5 chunks of the concatenation reach answer
synthesis, so the synthesized-over list has length at most 5. -/
theorem askQuestionMultiple_cross_document (gen : String → String)
    (s : PState) (question : String)
    (hq : ¬ pyStrip question = "") (hd : ¬ s.documents.isEmpty = true) :
    ((askLoop s question).1 =
      ((dictKeys s.documents).map
        (fun docId => searchOrEmpty s question docId 3)).flatten) ∧
    (((askLoop s question).1.take 5).length ≤ 5) ∧
    ((askLoop s question).1 ≠ [] →
      ∃ r : AskResult,
        (askQuestionMultiple gen s question).1 = Except.ok r ∧
        r.answer = generateAnswer gen question ((askLoop s question).1.take 5) ∧
        r.relevant_chunks =
          some (((askLoop s question).1.take 5).map mkRelevantChunk) ∧
        r.documents_searched = s.documents.length) := by
  refine ⟨askLoop_fst_eq_flatten s question, ?_, ?_⟩
  · rw [List.length_take]
    exact min_le_left _ _
  · intro hne
    unfold askQuestionMultiple
    rw [if_neg hq, if_neg hd,
      if_neg (fun h => hne (List.isEmpty_iff.mp h))]
    exact ⟨_, rfl, rfl, rfl, rfl⟩

/-- A second vectorstore for the two-document witness. -/
def sampleIndexTriple1 : VIndex :=
  fun _ _ => [(sampleDoc "first doc chunk one" 1, 1),
              (sampleDoc "first doc chunk two" 1, 2),
              (sampleDoc "first doc chunk three" 2, 3)]

/-- A third vectorstore for the two-document witness. -/
def sampleIndexTriple2 : VIndex :=
  fun _ _ => [(sampleDoc "second doc chunk one" 1, 1),
              (sampleDoc "second doc chunk two" 1, 2),
              (sampleDoc "second doc chunk three" 2, 3)]

/-- A store with two documents, each with a full top-3 match. -/
def sampleStateTwoDocs : PState :=
  { documents := [("d1", [sampleDoc "first doc chunk one" 1]),
                  ("d2", [sampleDoc "second doc chunk one" 1])],
    vectorstores := [("d1", sampleIndexTriple1), ("d2", sampleIndexTriple2)],
    qa_log := [], document_metadata := [] }

/-- Witness for C3: two documents with top-3 matches each; the answer
is synthesized over the first 5 of the 6 concatenated chunks. -/
theorem askQuestionMultiple_cross_document_witness :
    ∃ r : AskResult,
      (askQuestionMultiple (fun _ => "synthesized") sampleStateTwoDocs
        "What is covered?").1 = Except.ok r ∧
      r.answer = generateAnswer (fun _ => "synthesized") "What is covered?"
        ((askLoop sampleStateTwoDocs "What is covered?").1.take 5) ∧
      r.relevant_chunks =
        some (((askLoop sampleStateTwoDocs "What is covered?").1.take 5).map
          mkRelevantChunk) ∧
      r.documents_searched = sampleStateTwoDocs.documents.length :=
  (askQuestionMultiple_cross_document (fun _ => "synthesized")
    sampleStateTwoDocs "What is covered?" (by decide) (by decide)).2.2
    (by decide)

/-! ### Claim C2: documents and vectorstores share their key set -/

/-- The key list after a Python-dict assignment, as a function of the
old key list alone. -/
def keysAfterInsert : List String → String → List String
  | [], k => [k]
  | k' :: t, k => if k' = k then k' :: t else k' :: keysAfterInsert t k

/-- The key list after a Python-dict deletion, as a function of the old
key list alone. -/
def keysAfterErase : List String → String → List String
  | [], _ => []
  | k' :: t, k => if k' = k then t else k' :: keysAfterErase t k

/-- Assignment changes the key list independently of the values. -/
theorem dictKeys_dictInsert {α : Type} (d : List (String × α)) (k : String)
    (v : α) :
    dictKeys (dictInsert d k v) = keysAfterInsert (dictKeys d) k := by
  induction d with
  | nil => rfl
  | cons p t ih =>
    obtain ⟨k', v'⟩ := p
    simp only [dictKeys] at ih
    by_cases h : k' = k
    · simp [dictInsert, dictKeys, keysAfterInsert, h]
    · simp [dictInsert, dictKeys, keysAfterInsert, h, ih]

/-- Deletion changes the key list independently of the values. -/
theorem dictKeys_dictErase {α : Type} (d : List (String × α)) (k : String) :
    dictKeys (dictErase d k) = keysAfterErase (dictKeys d) k := by
  induction d with
  | nil => rfl
  | cons p t ih =>
    obtain ⟨k', v'⟩ := p
    simp only [dictKeys] at ih
    by_cases h : k' = k
    · simp [dictErase, dictKeys, keysAfterErase, h]
    · simp [dictErase, dictKeys, keysAfterErase, h, ih]

/-- Lookup success depends only on the key list. -/
theorem dictGet?_isSome_eq {α : Type} (d : List (String × α)) (k : String) :
    (dictGet? d k).isSome = (dictKeys d).contains k := by
  induction d with
  | nil => rfl
  | cons p t ih =>
    obtain ⟨k', v'⟩ := p
    by_cases h : k' = k
    · simp [dictGet?, dictKeys, h]
    · simp [dictGet?, dictKeys, h, ih, Ne.symm h]

/-- The store invariant: the Document Store and the Vector Index map
hold exactly the same keys, in the same order. -/
def StoreInv (s : PState) : Prop :=
  dictKeys s.documents = dictKeys s.vectorstores

/-- `process_pdf` preserves the invariant: both stores receive the new
identifier together, or neither does. -/
theorem storeInv_processPdf (splitText : String → List String)
    (buildVs : List Document → Except String VIndex) (s : PState)
    (pdfPath docId docName : String)
    (extraction : Except String (List (String × ExtractionMethod)))
    (h : StoreInv s) :
    StoreInv (processPdf splitText buildVs s pdfPath docId docName
      extraction).2 := by
  cases extraction with
  | error e => exact h
  | ok pages =>
    by_cases hd :
        (extractTextFromPdf splitText pdfPath docName pages s).1.isEmpty = true
    · have hproc : (processPdf splitText buildVs s pdfPath docId docName
          (Except.ok pages)).2 =
          (extractTextFromPdf splitText pdfPath docName pages s).2 := by
        simp only [processPdf]
        rw [if_pos hd]
      rw [StoreInv, hproc]
      exact h
    · cases hb :
          buildVs (extractTextFromPdf splitText pdfPath docName pages s).1 with
      | error e =>
        have hproc : (processPdf splitText buildVs s pdfPath docId docName
            (Except.ok pages)).2 =
            (extractTextFromPdf splitText pdfPath docName pages s).2 := by
          simp only [processPdf]
          rw [if_neg hd, hb]
        rw [StoreInv, hproc]
        exact h
      | ok vs =>
        have hproc : (processPdf splitText buildVs s pdfPath docId docName
            (Except.ok pages)).2 =
            { documents := dictInsert s.documents docId
                (extractTextFromPdf splitText pdfPath docName pages s).1,
              vectorstores := dictInsert s.vectorstores docId vs,
              qa_log := s.qa_log,
              document_metadata := dictInsert s.document_metadata docName
                { filename := docName, full_path := pdfPath,
                  total_pages := pages.length } } := by
          simp only [processPdf]
          rw [if_neg hd, hb]
          rfl
        rw [StoreInv, hproc]
        show dictKeys (dictInsert s.documents docId _) =
          dictKeys (dictInsert s.vectorstores docId vs)
        rw [dictKeys_dictInsert, dictKeys_dictInsert, h]

/-- The delete handler preserves the invariant: both entries are
removed together (the `KeyError` branch is unreachable when the
invariant holds). -/
theorem storeInv_delete (s : PState) (docId : String) (h : StoreInv s) :
    StoreInv (deleteDocument s docId) := by
  cases hx : dictGet? s.documents docId with
  | none =>
    simp only [deleteDocument, hx]
    exact h
  | some chunks =>
    have hv : (dictGet? s.vectorstores docId).isSome = true := by
      rw [dictGet?_isSome_eq, ← h, ← dictGet?_isSome_eq, hx]
      rfl
    cases hy : dictGet? s.vectorstores docId with
    | none =>
      rw [hy] at hv
      simp at hv
    | some idx =>
      have hkeys : dictKeys (dictErase s.documents docId) =
          dictKeys (dictErase s.vectorstores docId) := by
        rw [dictKeys_dictErase, dictKeys_dictErase, h]
      cases chunks with
      | nil =>
        cases hz : dictGet? s.document_metadata "Unknown" with
        | none =>
          simp only [deleteDocument, hx, hy, hz]
          exact hkeys
        | some m =>
          simp only [deleteDocument, hx, hy, hz]
          exact hkeys
      | cons c rest =>
        cases hz : dictGet? s.document_metadata c.metadata.source with
        | none =>
          simp only [deleteDocument, hx, hy, hz]
          exact hkeys
        | some m =>
          simp only [deleteDocument, hx, hy, hz]
          exact hkeys

/-- Apply one operation, preserving the invariant. -/
theorem storeInv_applyOp (s : PState) (op : Op) (h : StoreInv s) :
    StoreInv (applyOp s op) := by
  cases op with
  | process st b p i n e => exact storeInv_processPdf st b s p i n e h
  | delete i => exact storeInv_delete s i h
  | clear => rfl

/-- **C2.**  In every state reachable by any sequence of the
store-mutating operations (process_pdf, delete_document,
clear/initialize) from the fresh processor, the Document Store and the
Vector Index map hold exactly the same keys: an identifier is in one
iff it is in the other. -/
theorem reachable_documents_vectorstores_keys_eq (s : PState)
    (h : Reachable s) :
    dictKeys s.documents = dictKeys s.vectorstores ∧
    ∀ docId : String,
      docId ∈ dictKeys s.documents ↔ docId ∈ dictKeys s.vectorstores := by
  obtain ⟨ops, rfl⟩ := h
  have main : ∀ (l : List Op) (s0 : PState), StoreInv s0 →
      StoreInv (l.foldl applyOp s0) := by
    intro l
    induction l with
    | nil => intro s0 h0; exact h0
    | cons op t ih =>
      intro s0 h0
      rw [List.foldl_cons]
      exact ih _ (storeInv_applyOp s0 op h0)
  have hinv := main ops initState rfl
  exact ⟨hinv, fun docId => by rw [StoreInv] at hinv; rw [hinv]⟩

/-- Witness for C2 on a concrete reachable state holding one ingested
document. -/
theorem reachable_keys_eq_witness :
    dictKeys (List.foldl applyOp initState
      [Op.process (fun t => [t]) (fun _ => Except.ok (fun _ _ => []))
        "/tmp/a.pdf" "doc_1" "a.pdf"
        (Except.ok [("this page has plenty of text to chunk",
          ExtractionMethod.direct)])]).documents =
    dictKeys (List.foldl applyOp initState
      [Op.process (fun t => [t]) (fun _ => Except.ok (fun _ _ => []))
        "/tmp/a.pdf" "doc_1" "a.pdf"
        (Except.ok [("this page has plenty of text to chunk",
          ExtractionMethod.direct)])]).vectorstores :=
  (reachable_documents_vectorstores_keys_eq _ ⟨_, rfl⟩).1

end PdfQA
